import Mathlib

/-!
Verification of the wedding-venue recommendation core:
the parameterized query composer (src/services/venue_query_builder.py,
function build_venue_query) and the recommendation assembler with its
fallback planner (src/services/venue_recommender.py, class VenueRecommender).

The Python code is shallowly embedded: SQL parameter values are modelled by
SqlValue, the parameter dictionary by an insertion-ordered association list,
the query text by a Lean String, database rows by the VenueRow structure,
and the asynchronous database session by an explicit oracle function
Exec : String -> Params -> Except String (List VenueRow).  Functions that
execute queries additionally return the trace of (query, params) pairs they
passed to the oracle, in call order, so that statements about the number and
order of round trips can be made.
-/

set_option maxRecDepth 100000

namespace VenueMcp

/-- A value bound to a named SQL placeholder: Python puts strings and ints
into the parameter dict of build_venue_query. -/
inductive SqlValue where
  | str : String → SqlValue
  | int : Int → SqlValue
deriving DecidableEq, Repr

/-- The parameter dictionary, as an insertion-ordered association list
(Python dicts preserve insertion order; no key is written twice). -/
abbrev Params := List (String × SqlValue)

/-- Keys of a parameter mapping, in insertion order. -/
def keys (ps : Params) : List String := ps.map Prod.fst

/-- venue_query_builder.py lines 38-47: the style_preference → venueType
lookup table. An unrecognized style yields the empty list. -/
def style_to_venue_type (style_preference : String) : List String :=
  if style_preference = "럭셔리" then ["HOTEL"]
  else if style_preference = "모던" then ["HOTEL", "WEDDING_HALL"]
  else if style_preference = "클래식" then ["HOTEL", "WEDDING_HALL"]
  else if style_preference = "자연친화" then ["GARDEN", "OUTDOOR"]
  else if style_preference = "야외정원" then ["GARDEN", "OUTDOOR"]
  else if style_preference = "미니멀" then ["HOUSE_STUDIO", "RESTAURANT"]
  else if style_preference = "유니크" then ["HOUSE_STUDIO", "RESTAURANT", "OTHER"]
  else []

/-- venue_query_builder.py line 52: the indoor venue types used by the
summer/winter season filter. -/
def indoor_types : List String := ["HOTEL", "WEDDING_HALL", "RESTAURANT", "HOUSE_STUDIO"]

/-- venue_query_builder.py lines 49-56: in summer or winter, a non-empty
style-derived list is intersected with indoor_types (order preserving
filter); an empty style-derived list is replaced by indoor_types outright.
In spring/autumn (or any other season string) the list is unchanged. -/
def seasonAdjust (season : String) (venue_types : List String) : List String :=
  if season = "여름" ∨ season = "겨울" then
    if venue_types ≠ [] then venue_types.filter (fun vt => indoor_types.contains vt)
    else indoor_types
  else venue_types

/-- The venue-type list actually used for the primary query's IN predicate:
style lookup followed by the season adjustment. -/
def effectiveVenueTypes (style_preference season : String) : List String :=
  seasonAdjust season (style_to_venue_type style_preference)

/-- venue_query_builder.py lines 66-70: guest_count → (parking_min, parking_max);
None (no finite upper bound) is modelled by Option.none. -/
def parking_map (guest_count : String) : Option (Int × Option Int) :=
  if guest_count = "소규모" then some (0, some 50)
  else if guest_count = "중규모" then some (30, some 150)
  else if guest_count = "대규모" then some (100, none)
  else none

/-- venue_query_builder.py line 33: Python truthiness test
`if region and region != "상관없음"` — the address predicate is added only
for a non-empty region different from the no-preference sentinel. -/
def regionEffective (region : String) : Bool :=
  region != "" && region != "상관없음"

/-- Placeholder names ":pre0", ":pre1", ... as produced by the Python list
comprehensions over range(len(venue_types)). -/
def typePlaceholders (pre : String) (n : Nat) : List String :=
  (List.range n).map (fun i => pre ++ toString i)

/-- venue_query_builder.py lines 29-83, the `conditions` accumulator:
the WHERE-clause fragments appended in source order (region, venue type,
parking lower bound, parking upper bound, budget exclusion).
`if max_val` is Python truthiness: the upper bound is skipped when the
mapped maximum is None (and would also be skipped for a zero maximum). -/
def build_conditions_list (guest_count budget region style_preference season : String) :
    List String :=
  (if regionEffective region then ["address LIKE :region_pattern"] else []) ++
  (let venue_types := effectiveVenueTypes style_preference season
   if venue_types ≠ [] then
     ["venueType IN (" ++
        String.intercalate ", " (typePlaceholders ":venue_type_" venue_types.length) ++ ")"]
   else []) ++
  (match parking_map guest_count with
   | some (_, max_val) =>
     ["parking >= :parking_min"] ++
     (match max_val with
      | some m => if m ≠ 0 then ["parking <= :parking_max"] else []
      | none => [])
   | none => []) ++
  (if budget = "저" then ["venueType != :excluded_type"] else [])

/-- venue_query_builder.py lines 29-83, the `params` accumulator: the
parameter entries appended in the same source order as the conditions
(the final `limit` entry is appended by build_venue_query). -/
def build_params_list (guest_count budget region style_preference season : String) :
    Params :=
  (if regionEffective region then
     [("region_pattern", SqlValue.str ("%" ++ region ++ "%"))]
   else []) ++
  (let venue_types := effectiveVenueTypes style_preference season
   if venue_types ≠ [] then
     venue_types.enum.map (fun iv => ("venue_type_" ++ toString iv.1, SqlValue.str iv.2))
   else []) ++
  (match parking_map guest_count with
   | some (min_val, max_val) =>
     [("parking_min", SqlValue.int min_val)] ++
     (match max_val with
      | some m => if m ≠ 0 then [("parking_max", SqlValue.int m)] else []
      | none => [])
   | none => []) ++
  (if budget = "저" then [("excluded_type", SqlValue.str "HOTEL")] else [])

/-- venue_query_builder.py lines 85-97: assemble the SELECT statement from
the conditions (WHERE omitted when no condition was produced), append the
HOTEL-first ORDER BY for a high budget, append the LIMIT placeholder and
bind it to num_recommendations. -/
def build_venue_query (guest_count budget region style_preference season : String)
    (num_recommendations : Int) : String × Params :=
  let conditions := build_conditions_list guest_count budget region style_preference season
  let params := build_params_list guest_count budget region style_preference season
  let query := "SELECT * FROM tb_wedding_hall" ++
    (if conditions ≠ [] then " WHERE " ++ String.intercalate " AND " conditions else "") ++
    (if budget = "고" then
       " ORDER BY CASE WHEN venueType = \x27HOTEL\x27 THEN 0 ELSE 1 END"
     else "")
  (query ++ " LIMIT :limit", params ++ [("limit", SqlValue.int num_recommendations)])

/-- A character that may appear in a named-placeholder identifier. -/
def isIdentChar (c : Char) : Bool := c.isAlpha || c.isDigit || c = '_'

/-- Scanner state machine collecting the identifier after each colon;
`acc` holds the reversed characters of the placeholder currently read. -/
def phAux : List Char → Option (List Char) → List String
  | [], none => []
  | [], some acc => [acc.reverse.asString]
  | c :: rest, none =>
    if c = ':' then phAux rest (some []) else phAux rest none
  | c :: rest, some acc =>
    if isIdentChar c then phAux rest (some (c :: acc))
    else acc.reverse.asString :: (if c = ':' then phAux rest (some []) else phAux rest none)

/-- The named placeholders referenced in a query template, in textual order:
every maximal identifier run following a colon. -/
def placeholderNames (q : String) : List String := phAux q.toList none

/-- One record of tb_wedding_hall as consumed by the recommender: the row
mapping gives name, venueType, parking, address, phone, imageUrl; the three
optional columns may be NULL (Option.none). -/
structure VenueRow where
  name : String
  venueType : String
  parking : Int
  address : Option String
  phone : Option String
  imageUrl : Option String
deriving DecidableEq, Repr

/-- Python `value or default` on an optional string column: None and the
empty string are both falsy and replaced by the default. -/
def pyOr (v : Option String) (dflt : String) : String :=
  match v with
  | none => dflt
  | some s => if s = "" then dflt else s

/-- venue_recommender.py lines 84-92 (and 254-258): venueType → Korean
label, defaulting to the raw code for unknown types. -/
def venue_type_kr (venue_type : String) : String :=
  if venue_type = "HOTEL" then "호텔"
  else if venue_type = "WEDDING_HALL" then "웨딩홀"
  else if venue_type = "OUTDOOR" then "야외"
  else if venue_type = "RESTAURANT" then "레스토랑"
  else if venue_type = "HOUSE_STUDIO" then "하우스스튜디오"
  else if venue_type = "GARDEN" then "가든"
  else if venue_type = "OTHER" then "기타"
  else venue_type

/-- venue_recommender.py _estimate_price_range. -/
def estimate_price_range (venue_type : String) : String :=
  if venue_type = "HOTEL" then "고"
  else if venue_type = "WEDDING_HALL" then "중"
  else if venue_type = "OUTDOOR" then "중"
  else if venue_type = "RESTAURANT" then "중"
  else if venue_type = "HOUSE_STUDIO" then "저"
  else if venue_type = "GARDEN" then "중"
  else if venue_type = "OTHER" then "중"
  else "중"

/-- venue_recommender.py _estimate_cost: nested lookup with default
"문의 필요" for any unmapped venue type / guest count combination. -/
def estimate_cost (venue_type guest_count : String) : String :=
  let pick := fun (small mid large : String) =>
    if guest_count = "소규모" then small
    else if guest_count = "중규모" then mid
    else if guest_count = "대규모" then large
    else "문의 필요"
  if venue_type = "HOTEL" then pick "3,000만원~" "5,000만원~" "8,000만원~"
  else if venue_type = "WEDDING_HALL" then pick "1,500만원~" "2,500만원~" "4,000만원~"
  else if venue_type = "GARDEN" then pick "1,000만원~" "2,000만원~" "3,500만원~"
  else if venue_type = "OUTDOOR" then pick "800만원~" "1,500만원~" "2,500만원~"
  else if venue_type = "RESTAURANT" then pick "500만원~" "1,000만원~" "2,000만원~"
  else if venue_type = "HOUSE_STUDIO" then pick "300만원~" "700만원~" "1,200만원~"
  else "문의 필요"

/-- venue_recommender.py _get_pros. -/
def get_pros (venue_type : String) : List String :=
  if venue_type = "HOTEL" then ["최고급 서비스", "부대시설 완비", "접근성 좋음"]
  else if venue_type = "WEDDING_HALL" then ["전문 웨딩 서비스", "다양한 패키지", "편리한 진행"]
  else if venue_type = "GARDEN" then ["자연친화적 분위기", "사진 촬영 좋음", "야외 세레모니 가능"]
  else if venue_type = "OUTDOOR" then ["개방적인 분위기", "자유로운 연출", "자연광 활용"]
  else if venue_type = "RESTAURANT" then ["맛있는 식사", "아늑한 분위기", "합리적 가격"]
  else if venue_type = "HOUSE_STUDIO" then ["프라이빗한 공간", "자유로운 구성", "저렴한 비용"]
  else ["정보 없음"]

/-- venue_recommender.py _get_cons. -/
def get_cons (venue_type : String) : List String :=
  if venue_type = "HOTEL" then ["높은 비용", "형식적 분위기"]
  else if venue_type = "WEDDING_HALL" then ["획일적인 진행", "시간 제약"]
  else if venue_type = "GARDEN" then ["날씨 영향", "계절 제한"]
  else if venue_type = "OUTDOOR" then ["날씨 변수", "편의시설 부족"]
  else if venue_type = "RESTAURANT" then ["공간 제약", "대규모 어려움"]
  else if venue_type = "HOUSE_STUDIO" then ["소규모만 가능", "시설 한계"]
  else ["정보 없음"]

/-- venue_recommender.py _get_food_style. -/
def get_food_style (venue_type : String) : List String :=
  if venue_type = "HOTEL" then ["코스", "파인다이닝"]
  else if venue_type = "WEDDING_HALL" then ["뷔페", "코스"]
  else if venue_type = "GARDEN" then ["뷔페", "바비큐"]
  else if venue_type = "OUTDOOR" then ["뷔페", "케이터링"]
  else if venue_type = "RESTAURANT" then ["코스", "한정식"]
  else if venue_type = "HOUSE_STUDIO" then ["케이터링", "핑거푸드"]
  else ["뷔페"]

/-- venue_recommender.py _generate_advice: fixed sentences keyed on budget,
guest count and season, joined by a space, with a default sentence when no
rule fires. -/
def generate_advice (guest_count budget _style season : String) : String :=
  let advices :=
    (if budget = "저" then ["예산을 고려해 평일 예식이나 오프시즌 할인을 활용해보세요"]
     else if budget = "고" then ["프리미엄 서비스와 부대시설을 적극 활용하세요"] else []) ++
    (if guest_count = "소규모" then ["소규모 웨딩은 프라이빗한 분위기를 살릴 수 있어요"]
     else if guest_count = "대규모" then ["대규모 예식은 주차와 접근성을 꼭 확인하세요"] else []) ++
    (if season = "봄" ∨ season = "가을" then ["성수기라 최소 6개월 전 예약을 권장합니다"]
     else if season = "여름" then ["야외 웨딩홀은 날씨 변수를 고려하세요"]
     else if season = "겨울" then ["실내 웨딩홀 위주로 알아보시는 것을 추천드려요"] else [])
  if advices ≠ [] then String.intercalate " " advices
  else "조건에 맞는 웨딩홀을 신중히 비교해보세요."

/-- venue_recommender.py lines 69-79: the why_parts list — one fragment per
truthy request facet (region only when effective). -/
def why_parts (guest_count budget region style_preference season : String) : List String :=
  (if guest_count ≠ "" then [guest_count ++ " 하객 수용"] else []) ++
  (if budget ≠ "" then [budget ++ " 예산대"] else []) ++
  (if regionEffective region then [region ++ " 지역"] else []) ++
  (if style_preference ≠ "" then [style_preference ++ " 스타일"] else []) ++
  (if season ≠ "" then [season ++ " 예식"] else [])

/-- One element of the output payload's recommendations array. -/
structure Recommendation where
  venue_name : String
  description : String
  capacity : String
  location : String
  price_range : String
  estimated_cost : String
  why_recommended : String
  pros : List String
  cons : List String
  amenities : List String
  food_style : List String
  phone : String
  image_url : String
  booking_tips : List String
deriving DecidableEq, Repr

/-- The full response payload. -/
structure RecommendationResponse where
  recommendations : List Recommendation
  overall_advice : String
deriving DecidableEq, Repr

/-- venue_recommender.py generate, lines 59-113: the per-row mapping of the
primary path. Null address becomes "정보 없음"; null phone and null imageUrl
become the empty string (Python `or` on each column). -/
def rowToRecommendation (guest_count budget region style_preference season : String)
    (row : VenueRow) : Recommendation :=
  { venue_name := row.name
    description := venue_type_kr row.venueType ++ " 타입의 웨딩홀입니다."
    capacity := "주차 " ++ toString row.parking ++ "대 가능"
    location := pyOr row.address "정보 없음"
    price_range := estimate_price_range row.venueType
    estimated_cost := estimate_cost row.venueType guest_count
    why_recommended :=
      String.intercalate ", " (why_parts guest_count budget region style_preference season) ++
        "에 적합합니다."
    pros := get_pros row.venueType
    cons := get_cons row.venueType
    amenities := ["주차 " ++ toString row.parking ++ "대"]
    food_style := get_food_style row.venueType
    phone := pyOr row.phone ""
    image_url := pyOr row.imageUrl ""
    booking_tips :=
      [season ++ " 시즌은 최소 6개월 전 예약 권장",
       "주말 예약 시 평일 대비 20-30% 할증",
       "오프 시즌 할인 이벤트 확인"] }

/-- venue_recommender.py _find_fallback_venue, lines 251-275: the per-row
mapping of the fallback path, with the relaxed-condition explanation. -/
def fallbackRecommendation (guest_count relaxed_condition : String)
    (row : VenueRow) : Recommendation :=
  { venue_name := row.name
    description := venue_type_kr row.venueType ++ " 타입의 웨딩홀입니다."
    capacity := "주차 " ++ toString row.parking ++ "대 가능"
    location := pyOr row.address "정보 없음"
    price_range := estimate_price_range row.venueType
    estimated_cost := estimate_cost row.venueType guest_count
    why_recommended :=
      "정확히 일치하는 결과가 없어 " ++ relaxed_condition ++ "하여 추천드립니다."
    pros := get_pros row.venueType
    cons := get_cons row.venueType
    amenities := ["주차 " ++ toString row.parking ++ "대"]
    food_style := get_food_style row.venueType
    phone := pyOr row.phone ""
    image_url := pyOr row.imageUrl ""
    booking_tips := ["조건을 조정하시면 더 많은 옵션을 확인할 수 있습니다."] }

/-- The style-only fallback query text of _find_fallback_venue, lines
237-244: venueType IN over :vt_i placeholders, LIMIT 1 literal. -/
def styleFallbackQuery (style_preference : String) : String :=
  "SELECT * FROM tb_wedding_hall WHERE venueType IN (" ++
    String.intercalate ", "
      (typePlaceholders ":vt_" (style_to_venue_type style_preference).length) ++
    ") LIMIT 1"

/-- The parameter mapping of the style-only fallback query: vt_i bound to
the i-th raw style-derived venue type (no season adjustment). -/
def styleFallbackParams (style_preference : String) : Params :=
  (style_to_venue_type style_preference).enum.map
    (fun iv => ("vt_" ++ toString iv.1, SqlValue.str iv.2))

/-- venue_recommender.py line 221: the unconditional fallback candidate —
no WHERE clause, LIMIT 1 literal, empty parameter mapping. -/
def uncondFallbackCandidate : String × Params × String :=
  ("SELECT * FROM tb_wedding_hall LIMIT 1", ([] : Params), "지역 조건을 완화")

/-- venue_recommender.py lines 219-244: the ordered fallback candidate list
(query, params, relaxed-condition description). The unconditional candidate
is always present; the style-only candidate is inserted in front of it when
the raw style-derived venue-type list is non-empty. -/
def fallback_queries_for (style_preference : String) :
    List (String × Params × String) :=
  let base := [uncondFallbackCandidate]
  if style_to_venue_type style_preference ≠ [] then
    (styleFallbackQuery style_preference, styleFallbackParams style_preference,
     "스타일 조건만 적용") :: base
  else base

/-- The database oracle: db.execute(text(query), params) returning either
the fetched rows or a raised database error (modelled as a message). -/
abbrev Exec := String → Params → Except String (List VenueRow)

/-- venue_recommender.py lines 246-282: try the fallback candidates in order,
stopping at the first whose fetchone yields a row and formatting it; a raised
database error propagates. Also returns the trace of executed queries. -/
def run_fallback_list (exec : Exec) (guest_count : String) :
    List (String × Params × String) →
      Except String (Option RecommendationResponse) × List (String × Params)
  | [] => (Except.ok none, [])
  | (query, params, relaxed_condition) :: rest =>
    match exec query params with
    | Except.error e => (Except.error e, [(query, params)])
    | Except.ok rows =>
      match rows.head? with
      | some row =>
        (Except.ok (some
          { recommendations := [fallbackRecommendation guest_count relaxed_condition row]
            overall_advice :=
              "정확히 일치하는 결과가 없어 " ++ relaxed_condition ++
                "하여 비슷한 웨딩홀을 추천드립니다." }),
         [(query, params)])
      | none =>
        let next := run_fallback_list exec guest_count rest
        (next.1, (query, params) :: next.2)

/-- venue_recommender.py _find_fallback_venue: build the candidate list for
the request's style and run it (budget, region and season are accepted but
unused, as in the source). -/
def find_fallback_venue (exec : Exec)
    (guest_count _budget _region style_preference _season : String) :
    Except String (Option RecommendationResponse) × List (String × Params) :=
  run_fallback_list exec guest_count (fallback_queries_for style_preference)

/-- venue_recommender.py generate, lines 24-121: build the primary query,
execute it, map the rows on success; on an empty result run the fallback
planner, and when that also yields nothing return the static empty-result
payload. A database error from any executed query propagates. The second
component is the trace of queries passed to the oracle, in order. -/
def generate (exec : Exec) (guest_count budget region style_preference season : String)
    (num_recommendations : Int) :
    Except String RecommendationResponse × List (String × Params) :=
  let qp := build_venue_query guest_count budget region style_preference season
    num_recommendations
  match exec qp.1 qp.2 with
  | Except.error e => (Except.error e, [qp])
  | Except.ok rows =>
    if rows.isEmpty then
      let fb := find_fallback_venue exec guest_count budget region style_preference season
      match fb.1 with
      | Except.error e => (Except.error e, qp :: fb.2)
      | Except.ok (some resp) => (Except.ok resp, qp :: fb.2)
      | Except.ok none =>
        (Except.ok
          { recommendations := []
            overall_advice := "조건에 맞는 웨딩홀을 찾지 못했습니다. 다른 조건으로 검색해보세요." },
         qp :: fb.2)
    else
      (Except.ok
        { recommendations :=
            rows.map (rowToRecommendation guest_count budget region style_preference season)
          overall_advice := generate_advice guest_count budget style_preference season },
       [qp])

/-- Substring test on the character lists (structural, kernel-evaluable). -/
def substrAux (pat : List Char) : List Char → Bool
  | [] => pat.isEmpty
  | c :: rest => pat.isPrefixOf (c :: rest) || substrAux pat rest

/-- Whether pat occurs as a contiguous substring of s. -/
def containsSubstr (s pat : String) : Bool := substrAux pat.toList s.toList

/-- The style lookup only ever returns one of eight concrete lists. -/
theorem style_to_venue_type_cases (s : String) :
    style_to_venue_type s = [] ∨
    style_to_venue_type s = ["HOTEL"] ∨
    style_to_venue_type s = ["HOTEL", "WEDDING_HALL"] ∨
    style_to_venue_type s = ["GARDEN", "OUTDOOR"] ∨
    style_to_venue_type s = ["HOUSE_STUDIO", "RESTAURANT"] ∨
    style_to_venue_type s = ["HOUSE_STUDIO", "RESTAURANT", "OTHER"] := by
  unfold style_to_venue_type
  split_ifs <;> simp

/-- After the season adjustment the effective type list is one of seven
concrete lists. -/
theorem effectiveVenueTypes_cases (s se : String) :
    effectiveVenueTypes s se = [] ∨
    effectiveVenueTypes s se = ["HOTEL"] ∨
    effectiveVenueTypes s se = ["HOTEL", "WEDDING_HALL"] ∨
    effectiveVenueTypes s se = ["GARDEN", "OUTDOOR"] ∨
    effectiveVenueTypes s se = ["HOUSE_STUDIO", "RESTAURANT"] ∨
    effectiveVenueTypes s se = ["HOUSE_STUDIO", "RESTAURANT", "OTHER"] ∨
    effectiveVenueTypes s se = ["HOTEL", "WEDDING_HALL", "RESTAURANT", "HOUSE_STUDIO"] := by
  unfold effectiveVenueTypes seasonAdjust
  rcases style_to_venue_type_cases s with hs|hs|hs|hs|hs|hs <;>
    rw [hs] <;> split_ifs <;> simp_all <;> decide

/-- The guest-count lookup only ever returns one of four values. -/
theorem parking_map_cases (gc : String) :
    parking_map gc = none ∨
    parking_map gc = some (0, some 50) ∨
    parking_map gc = some (30, some 150) ∨
    parking_map gc = some (100, none) := by
  unfold parking_map
  split_ifs <;> simp

/-- A budget string is the low tier, the high tier, or neither. -/
theorem budget_cases (b : String) :
    b = "저" ∨ b = "고" ∨ (b ≠ "저" ∧ b ≠ "고") := by
  by_cases h1 : b = "저"
  · exact Or.inl h1
  · by_cases h2 : b = "고"
    · exact Or.inr (Or.inl h2)
    · exact Or.inr (Or.inr ⟨h1, h2⟩)

/-- The region value influences the query text only through its
effectiveness test, and the limit value not at all: two requests agreeing on
the regionEffective bit and on all non-region, non-limit fields produce
identical template text. -/
theorem query_text_region_invariant (gc b r r' s se : String) (n n' : Int)
    (h : regionEffective r = regionEffective r') :
    (build_venue_query gc b r s se n).1 = (build_venue_query gc b r' s se n').1 := by
  unfold build_venue_query build_conditions_list
  rw [h]

/-- The region and limit values influence only bound values, never the
parameter keys: the key list is invariant under changing them (for regions
with the same effectiveness bit). -/
theorem query_keys_region_invariant (gc b r r' s se : String) (n n' : Int)
    (h : regionEffective r = regionEffective r') :
    keys (build_venue_query gc b r s se n).2 = keys (build_venue_query gc b r' s se n').2 := by
  unfold build_venue_query build_params_list keys
  rw [h]
  cases hre : regionEffective r' <;> simp

/-- C4: for every request, the list of named placeholders referenced in the
query template returned by build_venue_query equals, in order, the list of
keys of the returned parameter mapping, and those keys are pairwise distinct,
so each placeholder has exactly one bound value. -/
theorem placeholders_equal_param_keys (gc b r s se : String) (n : Int) :
    placeholderNames (build_venue_query gc b r s se n).1 =
      keys (build_venue_query gc b r s se n).2 ∧
    (keys (build_venue_query gc b r s se n).2).Nodup := by
  have hswap : ∀ r', regionEffective r = regionEffective r' →
      (placeholderNames (build_venue_query gc b r' s se 3).1 =
          keys (build_venue_query gc b r' s se 3).2 ∧
        (keys (build_venue_query gc b r' s se 3).2).Nodup) →
      (placeholderNames (build_venue_query gc b r s se n).1 =
          keys (build_venue_query gc b r s se n).2 ∧
        (keys (build_venue_query gc b r s se n).2).Nodup) := by
    intro r' h hg
    rw [query_text_region_invariant gc b r r' s se n 3 h,
        query_keys_region_invariant gc b r r' s se n 3 h]
    exact hg
  have main : ∀ r', r' = "서울" ∨ r' = "" →
      placeholderNames (build_venue_query gc b r' s se 3).1 =
        keys (build_venue_query gc b r' s se 3).2 ∧
      (keys (build_venue_query gc b r' s se 3).2).Nodup := by
    intro r' hr'
    rcases effectiveVenueTypes_cases s se with hv|hv|hv|hv|hv|hv|hv <;>
    rcases parking_map_cases gc with hp|hp|hp|hp <;>
    rcases budget_cases b with hb|hb|⟨hb1, hb2⟩ <;>
    rcases hr' with hr'|hr' <;>
    subst hr' <;>
    simp only [build_venue_query, build_conditions_list, build_params_list, hv, hp] <;>
    first
    | (subst hb; decide)
    | (simp only [if_neg hb1, if_neg hb2]; decide)
  cases hre : regionEffective r
  · exact hswap "" (by rw [hre]; rfl) (main "" (Or.inr rfl))
  · exact hswap "서울" (by rw [hre]; rfl) (main "서울" (Or.inl rfl))

/-- The WHERE-clause fragment list does not depend on the region value
beyond its effectiveness test. -/
theorem conditions_region_invariant (gc b r r' s se : String)
    (h : regionEffective r = regionEffective r') :
    build_conditions_list gc b r s se = build_conditions_list gc b r' s se := by
  unfold build_conditions_list
  rw [h]

/-- The region contributes to the parameter mapping exactly the
region_pattern entry (when effective) prepended to the region-free rest. -/
theorem params_region_decomposition (gc b r s se : String) :
    build_params_list gc b r s se =
      (if regionEffective r then
         [("region_pattern", SqlValue.str ("%" ++ r ++ "%"))]
       else []) ++ build_params_list gc b "" s se := by
  have h0 : regionEffective "" = false := rfl
  unfold build_params_list
  cases hre : regionEffective r <;> simp [hre, h0]

/-- C7: the request guest-count 중규모, budget 고, region 서울, style 모던,
season 가을, limit 3 composes exactly the query with the address LIKE
predicate (bound to the wildcard-wrapped 서울), venueType IN over HOTEL and
WEDDING_HALL, parking between 30 and 150, the HOTEL-first ORDER BY and the
limit placeholder bound to 3. -/
theorem scenario1_query :
    build_venue_query "중규모" "고" "서울" "모던" "가을" 3 =
      ("SELECT * FROM tb_wedding_hall WHERE address LIKE :region_pattern AND venueType IN (:venue_type_0, :venue_type_1) AND parking >= :parking_min AND parking <= :parking_max ORDER BY CASE WHEN venueType = \x27HOTEL\x27 THEN 0 ELSE 1 END LIMIT :limit",
       [("region_pattern", SqlValue.str "%서울%"),
        ("venue_type_0", SqlValue.str "HOTEL"),
        ("venue_type_1", SqlValue.str "WEDDING_HALL"),
        ("parking_min", SqlValue.int 30),
        ("parking_max", SqlValue.int 150),
        ("limit", SqlValue.int 3)]) := by decide

/-- C1 counterexample: two requests that differ only in the region value do
not always yield the same query template text — an effective region adds the
address predicate to the text while the no-preference sentinel does not. -/
theorem region_template_counterexample :
    (build_venue_query "중규모" "고" "서울" "모던" "가을" 3).1 ≠
      (build_venue_query "중규모" "고" "상관없음" "모던" "가을" 3).1 := by decide

/-- C1 (amended): the region value reaches the composed statement only via
the region_pattern placeholder — two requests differing only in the region
value and agreeing on its effectiveness (both non-empty non-sentinel, or
both empty/sentinel) yield identical template text, and the region
contributes to the parameter mapping exactly the region_pattern entry
holding the wildcard-wrapped value (nothing when ineffective). -/
theorem region_only_via_placeholder (gc b r1 r2 s se : String) (n : Int)
    (h : regionEffective r1 = regionEffective r2) :
    (build_venue_query gc b r1 s se n).1 = (build_venue_query gc b r2 s se n).1 ∧
    build_params_list gc b r1 s se =
      (if regionEffective r1 then
         [("region_pattern", SqlValue.str ("%" ++ r1 ++ "%"))]
       else []) ++ build_params_list gc b "" s se := by
  constructor
  · exact query_text_region_invariant gc b r1 r2 s se n n h
  · exact params_region_decomposition gc b r1 s se

/-- C1 witness: the amended statement at a concrete pair of effective
regions. -/
theorem region_only_via_placeholder_witness :
    regionEffective "부산" = regionEffective "대전" ∧
    ((build_venue_query "중규모" "고" "부산" "모던" "가을" 3).1 =
        (build_venue_query "중규모" "고" "대전" "모던" "가을" 3).1 ∧
      build_params_list "중규모" "고" "부산" "모던" "가을" =
        (if regionEffective "부산" then
           [("region_pattern", SqlValue.str ("%" ++ "부산" ++ "%"))]
         else []) ++ build_params_list "중규모" "고" "" "모던" "가을") :=
  ⟨by decide,
   region_only_via_placeholder "중규모" "고" "부산" "대전" "모던" "가을" 3 (by decide)⟩

/-- C2 counterexample: for style 자연친화 and season 여름 the effective
venue-type list is not the full indoor set — it is empty, and the composed
query binds no venue_type_0 placeholder at all. -/
theorem summer_nature_counterexample :
    effectiveVenueTypes "자연친화" "여름" ≠ indoor_types ∧
    (build_venue_query "소규모" "중" "상관없음" "자연친화" "여름" 3).2.lookup "venue_type_0" =
      none := by decide

/-- C2 (amended): for style 자연친화 and season 여름, the style-derived list
GARDEN, OUTDOOR intersected with the indoor set is indeed empty, but the
composed query then carries no venue-type predicate at all (the indoor set
replaces the list only when the style-derived list was empty before the
intersection), for every choice of the remaining request fields. -/
theorem summer_nature_no_type_filter (gc b r : String) (n : Int) :
    (style_to_venue_type "자연친화").filter (fun vt => indoor_types.contains vt) = [] ∧
    effectiveVenueTypes "자연친화" "여름" = [] ∧
    containsSubstr (build_venue_query gc b r "자연친화" "여름" n).1 "venueType IN" = false := by
  refine ⟨by decide, by decide, ?_⟩
  have main : ∀ r', r' = "서울" ∨ r' = "" →
      containsSubstr (build_venue_query gc b r' "자연친화" "여름" 3).1 "venueType IN" = false := by
    intro r' hr'
    rcases parking_map_cases gc with hp|hp|hp|hp <;>
    rcases budget_cases b with hb|hb|⟨hb1, hb2⟩ <;>
    rcases hr' with h'|h' <;> subst h' <;>
    simp only [build_venue_query, build_conditions_list, hp] <;>
    first
    | (subst hb; decide)
    | (simp only [if_neg hb1, if_neg hb2]; decide)
  cases hre : regionEffective r
  · rw [query_text_region_invariant gc b r "" "자연친화" "여름" n 3 (by rw [hre]; rfl)]
    exact main "" (Or.inr rfl)
  · rw [query_text_region_invariant gc b r "서울" "자연친화" "여름" n 3 (by rw [hre]; rfl)]
    exact main "서울" (Or.inl rfl)

/-- C8: for every request with budget 저 the composed predicate list
contains the venue-type-not-equal condition exactly once, bound to HOTEL
under excluded_type; for budget 고 no exclusion predicate exists (count
zero, no != in the text) but the query text carries the ORDER BY ranking
HOTEL-typed rows first. -/
theorem budget_exclusion_and_order (gc r s se : String) (n : Int) :
    (build_conditions_list gc "저" r s se).count "venueType != :excluded_type" = 1 ∧
    ("excluded_type", SqlValue.str "HOTEL") ∈ build_params_list gc "저" r s se ∧
    (build_conditions_list gc "고" r s se).count "venueType != :excluded_type" = 0 ∧
    containsSubstr (build_venue_query gc "고" r s se n).1 "!=" = false ∧
    containsSubstr (build_venue_query gc "고" r s se n).1
      " ORDER BY CASE WHEN venueType = \x27HOTEL\x27 THEN 0 ELSE 1 END" = true := by
  have main : ∀ r', r' = "서울" ∨ r' = "" →
      (build_conditions_list gc "저" r' s se).count "venueType != :excluded_type" = 1 ∧
      ("excluded_type", SqlValue.str "HOTEL") ∈ build_params_list gc "저" "" s se ∧
      (build_conditions_list gc "고" r' s se).count "venueType != :excluded_type" = 0 ∧
      containsSubstr (build_venue_query gc "고" r' s se 3).1 "!=" = false ∧
      containsSubstr (build_venue_query gc "고" r' s se 3).1
        " ORDER BY CASE WHEN venueType = \x27HOTEL\x27 THEN 0 ELSE 1 END" = true := by
    intro r' hr'
    rcases effectiveVenueTypes_cases s se with hv|hv|hv|hv|hv|hv|hv <;>
    rcases parking_map_cases gc with hp|hp|hp|hp <;>
    rcases hr' with h'|h' <;> subst h' <;>
    simp only [build_venue_query, build_conditions_list, build_params_list, hv, hp] <;>
    decide
  cases hre : regionEffective r
  · obtain ⟨c1, c2, c3, c4, c5⟩ := main "" (Or.inr rfl)
    refine ⟨?_, ?_, ?_, ?_, ?_⟩
    · rw [conditions_region_invariant gc "저" r "" s se (by rw [hre]; rfl)]; exact c1
    · rw [params_region_decomposition gc "저" r s se]
      exact List.mem_append_right _ c2
    · rw [conditions_region_invariant gc "고" r "" s se (by rw [hre]; rfl)]; exact c3
    · rw [query_text_region_invariant gc "고" r "" s se n 3 (by rw [hre]; rfl)]; exact c4
    · rw [query_text_region_invariant gc "고" r "" s se n 3 (by rw [hre]; rfl)]; exact c5
  · obtain ⟨c1, c2, c3, c4, c5⟩ := main "서울" (Or.inl rfl)
    refine ⟨?_, ?_, ?_, ?_, ?_⟩
    · rw [conditions_region_invariant gc "저" r "서울" s se (by rw [hre]; rfl)]; exact c1
    · rw [params_region_decomposition gc "저" r s se]
      exact List.mem_append_right _ c2
    · rw [conditions_region_invariant gc "고" r "서울" s se (by rw [hre]; rfl)]; exact c3
    · rw [query_text_region_invariant gc "고" r "서울" s se n 3 (by rw [hre]; rfl)]; exact c4
    · rw [query_text_region_invariant gc "고" r "서울" s se n 3 (by rw [hre]; rfl)]; exact c5

/-- C9: for every request with guest-count 대규모 the composed query carries
the parking lower-bound predicate bound to 100 and no parking upper-bound
predicate (neither the condition text nor a parking_max key exists). -/
theorem large_guest_parking (b r s se : String) (n : Int) :
    "parking >= :parking_min" ∈ build_conditions_list "대규모" b r s se ∧
    ("parking_min", SqlValue.int 100) ∈ build_params_list "대규모" b r s se ∧
    "parking <= :parking_max" ∉ build_conditions_list "대규모" b r s se ∧
    "parking_max" ∉ keys (build_venue_query "대규모" b r s se n).2 ∧
    containsSubstr (build_venue_query "대규모" b r s se n).1 "parking <= :parking_max" =
      false := by
  have main : ∀ r', r' = "서울" ∨ r' = "" →
      "parking >= :parking_min" ∈ build_conditions_list "대규모" b r' s se ∧
      ("parking_min", SqlValue.int 100) ∈ build_params_list "대규모" b "" s se ∧
      "parking <= :parking_max" ∉ build_conditions_list "대규모" b r' s se ∧
      "parking_max" ∉ keys (build_venue_query "대규모" b r' s se 3).2 ∧
      containsSubstr (build_venue_query "대규모" b r' s se 3).1 "parking <= :parking_max" =
        false := by
    intro r' hr'
    rcases effectiveVenueTypes_cases s se with hv|hv|hv|hv|hv|hv|hv <;>
    rcases budget_cases b with hb|hb|⟨hb1, hb2⟩ <;>
    rcases hr' with h'|h' <;> subst h' <;>
    simp only [build_venue_query, build_conditions_list, build_params_list, keys, hv] <;>
    first
    | (subst hb; decide)
    | (simp only [if_neg hb1, if_neg hb2]; decide)
  cases hre : regionEffective r
  · obtain ⟨c1, c2, c3, c4, c5⟩ := main "" (Or.inr rfl)
    refine ⟨?_, ?_, ?_, ?_, ?_⟩
    · rw [conditions_region_invariant "대규모" b r "" s se (by rw [hre]; rfl)]; exact c1
    · rw [params_region_decomposition "대규모" b r s se]
      exact List.mem_append_right _ c2
    · rw [conditions_region_invariant "대규모" b r "" s se (by rw [hre]; rfl)]; exact c3
    · rw [query_keys_region_invariant "대규모" b r "" s se n 3 (by rw [hre]; rfl)]; exact c4
    · rw [query_text_region_invariant "대규모" b r "" s se n 3 (by rw [hre]; rfl)]; exact c5
  · obtain ⟨c1, c2, c3, c4, c5⟩ := main "서울" (Or.inl rfl)
    refine ⟨?_, ?_, ?_, ?_, ?_⟩
    · rw [conditions_region_invariant "대규모" b r "서울" s se (by rw [hre]; rfl)]; exact c1
    · rw [params_region_decomposition "대규모" b r s se]
      exact List.mem_append_right _ c2
    · rw [conditions_region_invariant "대규모" b r "서울" s se (by rw [hre]; rfl)]; exact c3
    · rw [query_keys_region_invariant "대규모" b r "서울" s se n 3 (by rw [hre]; rfl)]; exact c4
    · rw [query_text_region_invariant "대규모" b r "서울" s se n 3 (by rw [hre]; rfl)]; exact c5

/-- C3 counterexample: a row with null address, phone and image reference is
not given "not available" placeholder text for each missing field — the
built recommendation's phone and image_url are the empty string, which is
not the repository's 정보 없음 placeholder (only location receives it). -/
theorem null_fields_counterexample :
    (rowToRecommendation "중규모" "고" "서울" "모던" "가을"
        { name := "A홀", venueType := "HOTEL", parking := 10,
          address := none, phone := none, imageUrl := none }).phone = "" ∧
    (rowToRecommendation "중규모" "고" "서울" "모던" "가을"
        { name := "A홀", venueType := "HOTEL", parking := 10,
          address := none, phone := none, imageUrl := none }).image_url = "" ∧
    "" ≠ "정보 없음" := by decide

/-- C3 (amended): for every row whose optional fields are null, both the
primary per-row mapping and the fallback mapping substitute total strings —
정보 없음 for a null address, and the empty string for a null phone and a
null image reference — so no null value appears in the output payload (all
Recommendation fields are total strings by construction). -/
theorem null_fields_substitution (gc b r s se d nm vt : String) (p : Int) :
    (rowToRecommendation gc b r s se ⟨nm, vt, p, none, none, none⟩).location = "정보 없음" ∧
    (rowToRecommendation gc b r s se ⟨nm, vt, p, none, none, none⟩).phone = "" ∧
    (rowToRecommendation gc b r s se ⟨nm, vt, p, none, none, none⟩).image_url = "" ∧
    (fallbackRecommendation gc d ⟨nm, vt, p, none, none, none⟩).location = "정보 없음" ∧
    (fallbackRecommendation gc d ⟨nm, vt, p, none, none, none⟩).phone = "" ∧
    (fallbackRecommendation gc d ⟨nm, vt, p, none, none, none⟩).image_url = "" :=
  ⟨rfl, rfl, rfl, rfl, rfl, rfl⟩

/-- C5: when the collaborator reports a failure on the primary query,
generate propagates exactly that error to its caller, the trace shows the
primary query was executed exactly once (no retry, no fallback executed),
and no recommendation response is produced. -/
theorem db_error_propagates (exec : Exec) (gc b r s se : String) (n : Int) (e : String)
    (h : exec (build_venue_query gc b r s se n).1 (build_venue_query gc b r s se n).2 =
      Except.error e) :
    generate exec gc b r s se n =
      (Except.error e, [build_venue_query gc b r s se n]) := by
  simp only [generate, h]

/-- An oracle whose every execution reports a database failure. -/
def failingExec : Exec := fun _ _ => Except.error "db down"

/-- C5 witness: the error-propagation theorem at a concrete request and a
concrete failing oracle. -/
theorem db_error_propagates_witness :
    failingExec (build_venue_query "중규모" "고" "서울" "모던" "가을" 3).1
        (build_venue_query "중규모" "고" "서울" "모던" "가을" 3).2 =
      Except.error "db down" ∧
    generate failingExec "중규모" "고" "서울" "모던" "가을" 3 =
      (Except.error "db down", [build_venue_query "중규모" "고" "서울" "모던" "가을" 3]) :=
  ⟨rfl, db_error_propagates failingExec "중규모" "고" "서울" "모던" "가을" 3 "db down" rfl⟩

/-- The conclusion of the fallback-plan theorem, bundled: the candidate list
for a style with a non-empty type list is exactly style-only then
unconditional; the style-only candidate binds exactly the raw style-derived
type list; every candidate (for an arbitrary style s2) has the literal
LIMIT 1 and carries no address, parking or exclusion predicate and no
region/parking/budget parameter key; the candidate list for s2 drops the
style-only candidate exactly when the style-derived list is empty; and when
the primary query is empty and the style-only candidate yields a row,
generate returns that row's fallback recommendation with a trace showing
the primary query and the style-only query only — the unconditional
candidate is never executed. -/
def FallbackPlanSpec (exec : Exec) (gc b r s se s2 : String) (n : Int)
    (row : VenueRow) : Prop :=
  fallback_queries_for s =
    [(styleFallbackQuery s, styleFallbackParams s, "스타일 조건만 적용"),
     uncondFallbackCandidate] ∧
  (styleFallbackParams s).map Prod.snd = (style_to_venue_type s).map SqlValue.str ∧
  (fallback_queries_for s2).all (fun c =>
    containsSubstr c.1 "LIMIT 1" &&
    !containsSubstr c.1 "address" && !containsSubstr c.1 "parking" &&
    !containsSubstr c.1 "!=" &&
    (keys c.2.1).all (fun k =>
      k != "region_pattern" && k != "parking_min" && k != "parking_max" &&
      k != "excluded_type")) = true ∧
  fallback_queries_for s2 =
    (if style_to_venue_type s2 = [] then [uncondFallbackCandidate]
     else [(styleFallbackQuery s2, styleFallbackParams s2, "스타일 조건만 적용"),
           uncondFallbackCandidate]) ∧
  generate exec gc b r s se n =
    (Except.ok
      { recommendations := [fallbackRecommendation gc "스타일 조건만 적용" row]
        overall_advice :=
          "정확히 일치하는 결과가 없어 스타일 조건만 적용하여 비슷한 웨딩홀을 추천드립니다." },
     [build_venue_query gc b r s se n, (styleFallbackQuery s, styleFallbackParams s)])

/-- C6: for a request whose primary query returns zero rows and whose style
maps to a non-empty type list, the fallback plan and its execution satisfy
FallbackPlanSpec: style-only candidate first (filtering only by the raw type
list, limit 1), unconditional candidate second, style-only skipped exactly
for an empty style-derived list, region/parking/budget absent from every
candidate, and execution stopping at the first candidate yielding a row. -/
theorem fallback_plan (exec : Exec) (gc b r s se s2 : String) (n : Int)
    (row : VenueRow) (more : List VenueRow)
    (hp : exec (build_venue_query gc b r s se n).1 (build_venue_query gc b r s se n).2 =
      Except.ok [])
    (hs : style_to_venue_type s ≠ [])
    (hf : exec (styleFallbackQuery s) (styleFallbackParams s) = Except.ok (row :: more)) :
    FallbackPlanSpec exec gc b r s se s2 n row := by
  have h1 : fallback_queries_for s =
      [(styleFallbackQuery s, styleFallbackParams s, "스타일 조건만 적용"),
       uncondFallbackCandidate] := by
    simp only [fallback_queries_for, if_pos hs]
  refine ⟨h1, ?_, ?_, ?_, ?_⟩
  · unfold styleFallbackParams
    rw [List.map_map]
    rw [show (Prod.snd ∘ fun iv : Nat × String =>
          ("vt_" ++ toString iv.1, SqlValue.str iv.2)) = (SqlValue.str ∘ Prod.snd) from rfl]
    rw [← List.map_map, List.enum_eq_enumFrom, List.enumFrom_map_snd]
  · rcases style_to_venue_type_cases s2 with h2|h2|h2|h2|h2|h2 <;>
      simp only [fallback_queries_for, styleFallbackQuery, styleFallbackParams,
        uncondFallbackCandidate, typePlaceholders, h2] <;> decide
  · rcases style_to_venue_type_cases s2 with h2|h2|h2|h2|h2|h2 <;>
      simp only [fallback_queries_for, styleFallbackQuery, styleFallbackParams,
        uncondFallbackCandidate, typePlaceholders, h2] <;> decide
  · simp only [generate, hp, List.isEmpty_nil, if_true, find_fallback_venue, h1,
      run_fallback_list, hf, List.head?_cons]
    rfl

/-- A concrete sample row used by witnesses. -/
def sampleRow : VenueRow :=
  { name := "그랜드홀", venueType := "WEDDING_HALL", parking := 80,
    address := some "서울시 중구", phone := some "02-000-0000", imageUrl := none }

/-- An oracle returning the sample row for the 유니크 style-only fallback
query and the empty row set for every other query. -/
def emptyThenStyleExec : Exec := fun q _ =>
  if q = styleFallbackQuery "유니크" then Except.ok [sampleRow] else Except.ok []

/-- C6 witness: the fallback-plan theorem at a concrete request whose
primary query is empty and whose style-only candidate yields a row. -/
theorem fallback_plan_witness :
    emptyThenStyleExec (build_venue_query "소규모" "저" "서울" "유니크" "봄" 3).1
        (build_venue_query "소규모" "저" "서울" "유니크" "봄" 3).2 = Except.ok [] ∧
    style_to_venue_type "유니크" ≠ [] ∧
    emptyThenStyleExec (styleFallbackQuery "유니크") (styleFallbackParams "유니크") =
      Except.ok [sampleRow] ∧
    FallbackPlanSpec emptyThenStyleExec "소규모" "저" "서울" "유니크" "봄" "" 3 sampleRow :=
  ⟨rfl, by decide, rfl,
   fallback_plan emptyThenStyleExec "소규모" "저" "서울" "유니크" "봄" "" 3 sampleRow []
     rfl (by decide) rfl⟩

/-- C10: for a summer or winter request whose style maps to the outdoor
types GARDEN and OUTDOOR, the first fallback candidate filters on exactly
those raw style-derived types (no season-based indoor intersection), while
the primary query's effective venue-type list is empty — the season
adjustment removed those types from the primary filter, which therefore
binds no venue_type placeholder and carries no venueType IN predicate. -/
theorem raw_style_fallback_bypasses_season (gc b r s se : String) (n : Int)
    (hse : se = "여름" ∨ se = "겨울")
    (hs : style_to_venue_type s = ["GARDEN", "OUTDOOR"]) :
    (fallback_queries_for s).head? =
      some (styleFallbackQuery s, styleFallbackParams s, "스타일 조건만 적용") ∧
    (styleFallbackParams s).map Prod.snd = [SqlValue.str "GARDEN", SqlValue.str "OUTDOOR"] ∧
    effectiveVenueTypes s se = [] ∧
    "venue_type_0" ∉ keys (build_venue_query gc b r s se n).2 ∧
    containsSubstr (build_venue_query gc b r s se n).1 "venueType IN" = false := by
  have h3 : effectiveVenueTypes s se = [] := by
    unfold effectiveVenueTypes seasonAdjust
    rw [hs]
    rcases hse with h|h <;> subst h <;> decide
  have main : ∀ r', r' = "서울" ∨ r' = "" →
      "venue_type_0" ∉ keys (build_venue_query gc b r' s se 3).2 ∧
      containsSubstr (build_venue_query gc b r' s se 3).1 "venueType IN" = false := by
    intro r' hr'
    rcases parking_map_cases gc with hpk|hpk|hpk|hpk <;>
    rcases budget_cases b with hb|hb|⟨hb1, hb2⟩ <;>
    rcases hr' with h'|h' <;> subst h' <;>
    simp only [build_venue_query, build_conditions_list, build_params_list, keys, h3, hpk] <;>
    first
    | (subst hb; decide)
    | (simp only [if_neg hb1, if_neg hb2]; decide)
  have hne : style_to_venue_type s ≠ [] := by rw [hs]; decide
  refine ⟨?_, ?_, h3, ?_, ?_⟩
  · simp only [fallback_queries_for, if_pos hne, List.head?_cons]
  · unfold styleFallbackParams
    rw [hs]
    decide
  · cases hre : regionEffective r
    · rw [query_keys_region_invariant gc b r "" s se n 3 (by rw [hre]; rfl)]
      exact (main "" (Or.inr rfl)).1
    · rw [query_keys_region_invariant gc b r "서울" s se n 3 (by rw [hre]; rfl)]
      exact (main "서울" (Or.inl rfl)).1
  · cases hre : regionEffective r
    · rw [query_text_region_invariant gc b r "" s se n 3 (by rw [hre]; rfl)]
      exact (main "" (Or.inr rfl)).2
    · rw [query_text_region_invariant gc b r "서울" s se n 3 (by rw [hre]; rfl)]
      exact (main "서울" (Or.inl rfl)).2

/-- C10 witness: the theorem at style 자연친화 and season 여름 with the
remaining request fields fixed. -/
theorem raw_style_fallback_bypasses_season_witness :
    ("여름" = "여름" ∨ "여름" = "겨울") ∧
    style_to_venue_type "자연친화" = ["GARDEN", "OUTDOOR"] ∧
    ((fallback_queries_for "자연친화").head? =
        some (styleFallbackQuery "자연친화", styleFallbackParams "자연친화",
          "스타일 조건만 적용") ∧
      (styleFallbackParams "자연친화").map Prod.snd =
        [SqlValue.str "GARDEN", SqlValue.str "OUTDOOR"] ∧
      effectiveVenueTypes "자연친화" "여름" = [] ∧
      "venue_type_0" ∉ keys (build_venue_query "소규모" "저" "부산" "자연친화" "여름" 3).2 ∧
      containsSubstr (build_venue_query "소규모" "저" "부산" "자연친화" "여름" 3).1
        "venueType IN" = false) :=
  ⟨Or.inl rfl, by decide,
   raw_style_fallback_bypasses_season "소규모" "저" "부산" "자연친화" "여름" 3
     (Or.inl rfl) (by decide)⟩

end VenueMcp
